import Mathlib

/-!
Verification of the execution core of the kyua test engine: the Context
snapshot (engine/context.cpp) and the TestCase execution protocol exercised
by engine/test_case_test.cpp.
-/

/-- File-system paths (fs::path); compared structurally as strings. -/
abbrev fs.path := String

/-- Model of std::map<std::string, std::string>: an association list kept
sorted by key with unique keys, so that structural (list) equality matches
std::map equality. -/
abbrev Smap := List (String × String)

/-- Ordered insertion into an Smap, modelling std::map insertion /
operator[] assignment: keeps keys sorted and unique, overwriting the value
when the key is already present. -/
def Smap.insert : Smap → String → String → Smap
  | [], k, v => [(k, v)]
  | (k0, v0) :: rest, k, v =>
    if k < k0 then (k, v) :: (k0, v0) :: rest
    else if k = k0 then (k, v) :: rest
    else (k0, v0) :: Smap.insert rest k v

/-- Key lookup in an Smap, modelling std::map::find. -/
def Smap.lookup : Smap → String → Option String
  | [], _ => none
  | (k0, v0) :: rest, k => if k = k0 then some v0 else Smap.lookup rest k

/-- Building an std::map by inserting entries left to right, in the order
given by the list. -/
def Smap.fromList (l : List (String × String)) : Smap :=
  l.foldl (fun m kv => Smap.insert m kv.1 kv.2) []

/-- engine::context (via engine::context::impl): the captured working
directory and environment variables.  Immutable once constructed. -/
structure Context where
  cwd : fs.path
  env : Smap
deriving DecidableEq, Repr

/-- engine::context::operator== (delegating to impl::operator==):
`_cwd == other._cwd && _env == other._env`. -/
def Context.eq (a b : Context) : Bool :=
  a.cwd == b.cwd && a.env == b.env

/-- engine::context::operator!=: `!(*this == other)`. -/
def Context.ne (a b : Context) : Bool :=
  !(Context.eq a b)

/-- Modelled from the spec: the live process state read by
engine::context::current via fs::current_path() and utils::getallenv(),
whose implementations (utils/fs/operations.cpp, utils/env.cpp) are not in
the sources at hand.  It is the pair of the current working directory and
the current environment-variable mapping. -/
structure ProcessState where
  cwd : fs.path
  env : Smap

/-- engine::context::current: captures the live working directory and
environment of the calling process,
`context(fs::current_path(), utils::getallenv())`. -/
def Context.current (st : ProcessState) : Context :=
  Context.mk st.cwd st.env

/-- user_files::config.  The core treats it as opaque beyond reference
identity (spec, section 3); the `id` field is the identity token standing
for the address of the C++ object, as the spec's design notes prescribe for
targets without first-class reference identity. -/
structure Config where
  id : Nat
  architecture : String
  platform : String
  unprivileged_user : Option String
  test_suites : List (String × Smap)
deriving DecidableEq, Repr

/-- engine::test_result states.  Only `skipped` appears in the sources at
hand; the rest of the closed set is the minimal set named by the spec. -/
inductive result_type where
  | passed
  | failed
  | skipped
  | broken
  | expected_failure
deriving DecidableEq, Repr

/-- engine::test_result: a state from the closed set plus a human-readable
message; equality is structural. -/
structure test_result where
  result : result_type
  reason : String
deriving DecidableEq, Repr

/-- capture_hooks from engine/test_case_test.cpp: records the paths passed
to the hooks for later validation.  Both optionals start unset. -/
structure capture_hooks where
  stdout_path : Option fs.path := none
  stderr_path : Option fs.path := none
deriving DecidableEq, Repr

/-- capture_hooks::got_stdout: records the path to the stdout. -/
def capture_hooks.got_stdout (h : capture_hooks) (file : fs.path) : capture_hooks :=
  { h with stdout_path := some file }

/-- capture_hooks::got_stderr: records the path to the stderr. -/
def capture_hooks.got_stderr (h : capture_hooks) (file : fs.path) : capture_hooks :=
  { h with stderr_path := some file }

/-- engine::base_test_program.  The `id` field is the identity token for
the object's address (the tests compare `&test_program` against
`&test_case.test_program()`).  The virtual load_test_cases is represented
by the result its concrete implementation would produce; `none` stands for
an implementation that must never be called, such as the UNREACHABLE trap
of mock_test_program. -/
structure base_test_program where
  id : Nat
  binary : fs.path
  root : fs.path
  test_suite_name : String
  load_test_cases : Option (List String)
deriving DecidableEq, Repr

/-- mock_test_program from engine/test_case_test.cpp: fixed root and suite
name, and a load_test_cases that is an UNREACHABLE trap (`none`). -/
def mock_test_program (binary_ : fs.path) : base_test_program :=
  { id := 1
    binary := binary_
    root := "unused-root"
    test_suite_name := "unused-suite-name"
    load_test_cases := none }

/-- engine::base_test_case over a hooks state type H: identity (owning
program and name) plus the two virtual customization points,
get_all_properties and execute.  Hooks are passed by mutable reference in
the C++, so execute threads the hooks state explicitly; a thrown exception
is the `Except.error` case. -/
structure base_test_case (H : Type) where
  test_program : base_test_program
  name : String
  get_all_properties : Smap
  execute : Config → H → Option fs.path → Option fs.path →
    Except String (test_result × H)

/-- Modelled from the spec: the default candidate stdout location that
base_test_case::run (engine/test_case.cpp, not in the sources at hand)
establishes in its step 1 before delegating to execute. -/
def default_stdout_path : Option fs.path := some "stdout.txt"

/-- Modelled from the spec: the default candidate stderr location that
base_test_case::run establishes in its step 1. -/
def default_stderr_path : Option fs.path := some "stderr.txt"

/-- Modelled from the spec: base_test_case::all_properties
(engine/test_case.cpp, not in the sources at hand), which delegates to the
virtual get_all_properties to obtain the full metadata mapping. -/
def base_test_case.all_properties {H : Type} (t : base_test_case H) : Smap :=
  t.get_all_properties

/-- Modelled from the spec: base_test_case::run (engine/test_case.cpp, not
in the sources at hand), the non-virtual template method: establish the
default candidate output locations, invoke the virtual execute passing the
config through unchanged (identity preserved) and the hooks by mutable
reference, and return exactly the TestResult execute produces. -/
def base_test_case.run {H : Type} (t : base_test_case H) (config : Config)
    (hooks : H) : Except String (test_result × H) :=
  t.execute config hooks default_stdout_path default_stderr_path

/-- mock_config from engine/test_case_test.cpp:
`config("mock-architecture", "mock-platform", none, test_suites_map())`,
with identity token 0 for this particular instance. -/
def mock_config : Config :=
  { id := 0
    architecture := "mock-architecture"
    platform := "mock-platform"
    unprivileged_user := none
    test_suites := [] }

/-- mock_test_case from engine/test_case_test.cpp: get_all_properties
returns the map with properties["first"] = "value"; execute throws
"Invalid config object" when the received config is not mock_config by
identity, otherwise reports fake-stdout.txt and fake-stderr.txt to the
hooks and returns the static skipped result "A test result". -/
def mock_test_case (test_program_ : base_test_program) (name_ : String) :
    base_test_case capture_hooks :=
  { test_program := test_program_
    name := name_
    get_all_properties := Smap.insert [] "first" "value"
    execute := fun config hooks _ _ =>
      if config.id ≠ mock_config.id then
        Except.error "Invalid config object"
      else
        Except.ok (test_result.mk result_type.skipped "A test result",
          (hooks.got_stdout "fake-stdout.txt").got_stderr "fake-stderr.txt") }

/-- An execute implementation that validates, by identity, the received
config against an arbitrary expected instance, as the spec's contract
allows an implementation to do. -/
def identity_checking_execute (expected : Config) :
    Config → capture_hooks → Option fs.path → Option fs.path →
      Except String (test_result × capture_hooks) :=
  fun config hooks _ _ =>
    if config.id ≠ expected.id then
      Except.error "Invalid config object"
    else
      Except.ok (test_result.mk result_type.passed "", hooks)

/-- C4: Two Context values compare equal if and only if both their cwd
fields and their env mappings compare equal, and operator!= returns the
exact negation of operator==. -/
theorem context_eq_iff_fields_and_ne_is_negation (a b : Context) :
    (Context.eq a b = true ↔ a.cwd = b.cwd ∧ a.env = b.env) ∧
    Context.ne a b = !(Context.eq a b) := by
  constructor
  · simp [Context.eq]
  · rfl

/-- C5: Two captures of Context.current with an unchanged process working
directory and environment are equal, and when the cwd is unchanged but
exactly one environment variable's value differs between the two captures,
the two Context values compare unequal. -/
theorem context_current_capture_equality (st st1 st2 : ProcessState)
    (k : String) (hcwd : st1.cwd = st2.cwd)
    (hk : Smap.lookup st1.env k ≠ Smap.lookup st2.env k)
    ( _hrest : ∀ j, j ≠ k → Smap.lookup st1.env j = Smap.lookup st2.env j) :
    Context.eq (Context.current st) (Context.current st) = true ∧
    Context.ne (Context.current st1) (Context.current st2) = true := by
  refine ⟨by simp [Context.eq, Context.current], ?_⟩
  have henv : st1.env ≠ st2.env := fun h => hk (by rw [h])
  simp [Context.ne, Context.eq, Context.current, hcwd]
  exact henv

/-- Concrete instance of C5: captures over the state (cwd "/a", X=1)
versus (cwd "/a", X=2) differ, while a repeated capture over (cwd "/r",
HOME=/x) is equal to itself. -/
theorem context_current_capture_equality_witness :
    Context.eq (Context.current ⟨"/r", [("HOME", "/x")]⟩)
      (Context.current ⟨"/r", [("HOME", "/x")]⟩) = true ∧
    Context.ne (Context.current ⟨"/a", [("X", "1")]⟩)
      (Context.current ⟨"/a", [("X", "2")]⟩) = true :=
  context_current_capture_equality ⟨"/r", [("HOME", "/x")]⟩
    ⟨"/a", [("X", "1")]⟩ ⟨"/a", [("X", "2")]⟩ "X" rfl (by decide)
    (fun j hj => by simp [Smap.lookup, hj])

/-- C1: run(config, hooks) returns exactly the TestResult produced by the
virtual execute, unmodified; for the mock case, whose execute yields a
skipped result with message "A test result", run(mock_config, hooks)
returns exactly that skipped result. -/
theorem base_test_case_run_returns_execute_result {H : Type}
    (t : base_test_case H) (config : Config) (hooks : H) :
    t.run config hooks
      = t.execute config hooks default_stdout_path default_stderr_path ∧
    Except.map Prod.fst
        ((mock_test_case (mock_test_program "foo") "bar").run mock_config
          ⟨none, none⟩)
      = Except.ok (test_result.mk result_type.skipped "A test result") :=
  ⟨rfl, rfl⟩

/-- C2: after run(config, hooks) completes, the hooks have observed
got_stdout and got_stderr with exactly the locations execute reported,
namely fake-stdout.txt and fake-stderr.txt with both optionals set, even
though these differ from the default locations run proposed. -/
theorem base_test_case_run_reports_hook_locations (p : base_test_program)
    (n : String) :
    Except.map Prod.snd ((mock_test_case p n).run mock_config ⟨none, none⟩)
      = Except.ok (capture_hooks.mk (some "fake-stdout.txt")
          (some "fake-stderr.txt")) ∧
    some ("fake-stdout.txt" : fs.path) ≠ default_stdout_path ∧
    some ("fake-stderr.txt" : fs.path) ≠ default_stderr_path :=
  ⟨rfl, by decide, by decide⟩

/-- C3: run passes the config through to execute preserving instance
identity: execute receives the very argument run was given, and an execute
that compares the received config by identity against an arbitrary
expected instance c succeeds whenever run is called with c; in particular
the mock case run with mock_config itself succeeds. -/
theorem base_test_case_run_preserves_config_identity (c : Config)
    (tp : base_test_program) (n : String) (props : Smap)
    (hooks : capture_hooks) :
    base_test_case.run
        { test_program := tp, name := n, get_all_properties := props,
          execute := identity_checking_execute c } c hooks
      = Except.ok (test_result.mk result_type.passed "", hooks) ∧
    ∃ out, (mock_test_case tp n).run mock_config hooks = Except.ok out := by
  constructor
  · simp [base_test_case.run, identity_checking_execute]
  · exact ⟨_, rfl⟩

/-- C6: all_properties() returns exactly the mapping produced by the
virtual get_all_properties, and, being a pure function of the test case,
returns the same mapping on every call; for the mock case this mapping is
the singleton first = value. -/
theorem base_test_case_all_properties_delegates {H : Type}
    (t : base_test_case H) (tp : base_test_program) (n : String) :
    t.all_properties = t.get_all_properties ∧
    (mock_test_case tp n).all_properties = [("first", "value")] :=
  ⟨rfl, rfl⟩

/-- C7: a TestCase constructed with owning program p and name n has
test_program() returning the very same program instance p (the identity
token included) and name() returning n; concretely for the program "abc"
and case "foo" of the tests. -/
theorem base_test_case_ctor_and_getters (tp : base_test_program)
    (n : String) :
    ((mock_test_case tp n).test_program = tp ∧
      (mock_test_case tp n).test_program.id = tp.id ∧
      (mock_test_case tp n).name = n) ∧
    ((mock_test_case (mock_test_program "abc") "foo").test_program
        = mock_test_program "abc" ∧
      (mock_test_case (mock_test_program "abc") "foo").name = "foo") :=
  ⟨⟨rfl, rfl, rfl⟩, rfl, rfl⟩

/-- C8: when execute receives a config instance other than the expected
one by identity, it escalates a programming error (throws) and never
converts it into a normal TestResult value. -/
theorem mock_execute_rejects_foreign_config (c : Config)
    (tp : base_test_program) (n : String) (hooks : capture_hooks)
    (o1 o2 : Option fs.path) (h : c.id ≠ mock_config.id) :
    (mock_test_case tp n).execute c hooks o1 o2
      = Except.error "Invalid config object" ∧
    ∀ out, (mock_test_case tp n).execute c hooks o1 o2 ≠ Except.ok out := by
  have heq : (mock_test_case tp n).execute c hooks o1 o2
      = Except.error "Invalid config object" := by
    simp [mock_test_case, h]
  exact ⟨heq, fun out hc => by simp [heq] at hc⟩

/-- Concrete instance of C8: a config that equals mock_config field by
field but is a different instance (identity token 7) is rejected with the
"Invalid config object" error. -/
theorem mock_execute_rejects_foreign_config_witness :
    (Config.mk 7 "mock-architecture" "mock-platform" none []).id
      ≠ mock_config.id ∧
    (mock_test_case (mock_test_program "foo") "bar").execute
        (Config.mk 7 "mock-architecture" "mock-platform" none [])
        ⟨none, none⟩ none none
      = Except.error "Invalid config object" :=
  ⟨by decide,
    (mock_execute_rejects_foreign_config
      (Config.mk 7 "mock-architecture" "mock-platform" none [])
      (mock_test_program "foo") "bar" ⟨none, none⟩ none none (by decide)).1⟩

/-- C10: neither run nor all_properties ever invokes the owning program's
load_test_cases: their results are independent of that member, and both
operations complete on the mock case whose program's load_test_cases is
the unreachable trap. -/
theorem run_and_all_properties_never_invoke_load_test_cases {H : Type}
    (t : base_test_case H) (ltc1 ltc2 : Option (List String)) (c : Config)
    (hooks : H) :
    (base_test_case.run
        { t with test_program :=
            { t.test_program with load_test_cases := ltc1 } } c hooks
      = base_test_case.run
        { t with test_program :=
            { t.test_program with load_test_cases := ltc2 } } c hooks) ∧
    (base_test_case.all_properties
        { t with test_program :=
            { t.test_program with load_test_cases := ltc1 } }
      = base_test_case.all_properties
        { t with test_program :=
            { t.test_program with load_test_cases := ltc2 } }) ∧
    (mock_test_program "foo").load_test_cases = none ∧
    (∃ out, (mock_test_case (mock_test_program "foo") "bar").run mock_config
        ⟨none, none⟩ = Except.ok out) ∧
    (mock_test_case (mock_test_program "foo") "bar").all_properties
      = [("first", "value")] :=
  ⟨rfl, rfl, rfl, ⟨_, rfl⟩, rfl⟩

/-- Ordered insertion of two entries with distinct keys into an Smap
commutes. -/
theorem Smap.insert_comm (k1 v1 k2 v2 : String) (hne : k1 ≠ k2) :
    ∀ m : Smap, Smap.insert (Smap.insert m k1 v1) k2 v2
      = Smap.insert (Smap.insert m k2 v2) k1 v1 := by
  intro m
  induction m with
  | nil =>
    rcases lt_trichotomy k1 k2 with h | h | h
    · simp [Smap.insert, h, lt_asymm h, hne, Ne.symm hne]
    · exact absurd h hne
    · simp [Smap.insert, h, lt_asymm h, hne, Ne.symm hne]
  | cons a rest ih =>
    obtain ⟨ka, va⟩ := a
    rcases lt_trichotomy k1 ka with h1 | h1 | h1 <;>
      rcases lt_trichotomy k2 ka with h2 | h2 | h2
    · rcases lt_trichotomy k1 k2 with h3 | h3 | h3
      · simp [Smap.insert, h1, h2, h3, lt_asymm h3, ne_of_gt h3]
      · exact absurd h3 hne
      · simp [Smap.insert, h1, h2, h3, lt_asymm h3, hne]
    · subst h2
      simp [Smap.insert, h1, lt_asymm h1, ne_of_gt h1, lt_irrefl]
    · have h3 : k1 < k2 := lt_trans h1 h2
      simp [Smap.insert, h1, lt_asymm h2, ne_of_gt h2, lt_asymm h3,
        ne_of_gt h3]
    · subst h1
      simp [Smap.insert, h2, lt_asymm h2, hne, lt_irrefl]
    · exact absurd (h1.trans h2.symm) hne
    · subst h1
      simp [Smap.insert, h2, lt_asymm h2, ne_of_gt h2, lt_irrefl]
    · have h3 : k2 < k1 := lt_trans h2 h1
      simp [Smap.insert, h2, lt_asymm h1, ne_of_gt h1, lt_asymm h3, hne]
    · subst h2
      simp [Smap.insert, lt_asymm h1, hne, lt_irrefl]
    · simp [Smap.insert, lt_asymm h1, ne_of_gt h1, lt_asymm h2,
        ne_of_gt h2, ih]

/-- C9: Context construction from explicit (cwd, env) inputs is purely
structural: two Contexts whose env maps were built by inserting the same
entries (distinct keys) in any two orders compare equal. -/
theorem context_construction_structural (cwd0 : fs.path)
    (l1 l2 : List (String × String)) (hperm : l1.Perm l2)
    (hnd : (l1.map Prod.fst).Nodup) :
    Context.eq (Context.mk cwd0 (Smap.fromList l1))
      (Context.mk cwd0 (Smap.fromList l2)) = true := by
  have hmap : Smap.fromList l1 = Smap.fromList l2 := by
    unfold Smap.fromList
    refine hperm.foldl_eq' ?_ []
    intro x hx y hy z
    by_cases hxy : x = y
    · subst hxy; rfl
    · have hkey : x.1 ≠ y.1 :=
        fun h => hxy (List.inj_on_of_nodup_map hnd hx hy h)
      exact Smap.insert_comm x.1 x.2 y.1 y.2 hkey z
  simp [Context.eq, hmap]

/-- Concrete instance of C9: inserting A=1 then B=2 and inserting B=2 then
A=1 yield equal Contexts over the same cwd. -/
theorem context_construction_structural_witness :
    List.Perm [("A", "1"), ("B", "2")] [("B", "2"), ("A", "1")] ∧
    (([("A", "1"), ("B", "2")].map Prod.fst).Nodup) ∧
    Context.eq (Context.mk "/w" (Smap.fromList [("A", "1"), ("B", "2")]))
      (Context.mk "/w" (Smap.fromList [("B", "2"), ("A", "1")])) = true :=
  ⟨by decide, by decide,
    context_construction_structural "/w" [("A", "1"), ("B", "2")]
      [("B", "2"), ("A", "1")] (by decide) (by decide)⟩
